import Mathlib

/-!
Verification development for the Telegram email-check bot repository.

The repository has two Python source files:
* `bot.py` — a Telegram front end plus an embedded FastAPI service
  (`/status`, `/check_emails` with a substring classification rule),
  message handling with a per-user session flag, email parsing and
  result rendering;
* `main.py` — a standalone FastAPI service with the same endpoints but a
  fixed-dictionary classification rule.

Below, each Python function the claims depend on is embedded as an
executable Lean definition; machine-level details that the claims do not
touch (the HTTP framework, JSON decoding, threading) are modelled at the
handler level: a handler takes the configured API key, the value of the
`x-api-key` header (`Option String`, `none` = header absent) and the
decoded payload, and returns an abstract response value.
-/

section PythonStringHelpers

/-- Whitespace characters removed by the Python `str.strip()` call in
`parse_emails` (ASCII whitespace; the full Unicode set of Python is not
needed for any claim). -/
def pyIsSpace (c : Char) : Bool :=
  c == ' ' || c == '\t' || c == '\n' || c == '\r' || c == '\x0b' || c == '\x0c'

/-- `str.strip()` on the character list: drop whitespace from both ends. -/
def stripChars (l : List Char) : List Char :=
  (((l.dropWhile pyIsSpace).reverse).dropWhile pyIsSpace).reverse

/-- Python `line.strip()`. -/
def pyStrip (s : String) : String :=
  ⟨stripChars s.data⟩

/-- Line-boundary characters of Python `str.splitlines()`
(`\r\n` is treated as a single boundary by `splitlinesAux`). -/
def isLineBreakChar (c : Char) : Bool :=
  c == '\n' || c == '\r' || c == '\x0b' || c == '\x0c' ||
  c == '\x1c' || c == '\x1d' || c == '\x1e' || c == '\u0085' ||
  c == '\u2028' || c == '\u2029'

/-- Worker for `splitlines`: `acc` holds the current line reversed.
As in Python, a trailing segment is emitted only when nonempty, so
`"a\n".splitlines = ["a"]` and `"".splitlines = []`. -/
def splitlinesAux : List Char → List Char → List (List Char)
  | [], acc => if acc.isEmpty then [] else [acc.reverse]
  | '\r' :: '\n' :: rest, acc => acc.reverse :: splitlinesAux rest []
  | c :: rest, acc =>
      if isLineBreakChar c then acc.reverse :: splitlinesAux rest []
      else splitlinesAux rest (c :: acc)

/-- Python `text.splitlines()`. -/
def splitlines (s : String) : List String :=
  (splitlinesAux s.data []).map fun l => ⟨l⟩

/-- Python `text.replace(",", "\n")` (the replaced pattern is a single
character, so the replacement is a character map). -/
def replaceCommas (s : String) : String :=
  ⟨s.data.map fun c => if c = ',' then '\n' else c⟩

/-- The filter `"@" in line and "." in line` from `parse_emails`
(membership of a single-character needle is character membership). -/
def hasAtAndDot (line : String) : Bool :=
  line.data.contains '@' && line.data.contains '.'

/-- Python `str.lower()` (ASCII case mapping; every string any claim
feeds to it is ASCII). -/
def pyLower (s : String) : String :=
  ⟨s.data.map Char.toLower⟩

/-- Does `hay` start with `needle`? (helper for the substring test). -/
def leadMatch : List Char → List Char → Bool
  | [], _ => true
  | _ :: _, [] => false
  | a :: as, b :: bs => a == b && leadMatch as bs

/-- Python substring containment `needle in hay`. -/
def hasSub (needle : List Char) : List Char → Bool
  | [] => leadMatch needle []
  | c :: rest => leadMatch needle (c :: rest) || hasSub needle rest

end PythonStringHelpers

section FrontEndHelpers

/-- `bot.py` `parse_emails`: replace commas with newlines, split into
lines, keep lines containing both `@` and `.`, strip each kept line and
deduplicate (the Python source builds a set; `List.dedup` models it). -/
def parse_emails (text : String) : List String :=
  ((((splitlines (replaceCommas text)).filter hasAtAndDot).map pyStrip)).dedup

/-- The `status_map` literal of `bot.py` `format_results`. -/
def status_map : List (String × String) :=
  [("yes", "⚠️ Flagged"),
   ("no", "✅ Active"),
   ("captcha", "🛡 CAPTCHA blocked"),
   ("error", "❓ Unknown or Error")]

/-- `status_map.get(status, "❓ Unknown")` from `format_results`. -/
def statusMapGet (status : String) : String :=
  ((status_map.find? fun p => p.1 == status).map Prod.snd).getD "❓ Unknown"

/-- `bot.py` `format_results`: one `label – email` line per entry,
joined by newlines.  The result mapping is modelled as an association
list in Python-dict insertion order. -/
def format_results (results : List (String × String)) : String :=
  String.intercalate "\n"
    (results.map fun p => statusMapGet p.2 ++ " – " ++ p.1)

end FrontEndHelpers

section Services

/-- Python-dict assignment `d[k] = v`: update the value in place when the
key exists, otherwise append the binding. -/
def dictInsert (k v : String) : List (String × String) → List (String × String)
  | [] => [(k, v)]
  | p :: rest => if p.1 = k then (k, v) :: rest else p :: dictInsert k v rest

/-- The keys of a modelled dict, in order. -/
def dictKeys (d : List (String × String)) : List String :=
  d.map Prod.fst

/-- Python `d.get(k)` returning `None` for a missing key. -/
def getValue (d : List (String × String)) (k : String) : Option String :=
  (d.find? fun p => p.1 == k).map Prod.snd

/-- The classification loop shared by both `check_emails` handlers:
`results = {}` then `results[email] = classify(email)` for each email. -/
def runBatch (classify : String → String) (emails : List String) :
    List (String × String) :=
  emails.foldl (fun d e => dictInsert e (classify e) d) []

/-- The substring classification rule of `bot.py` `check_emails`:
`"flag" in email` gives `"yes"`, else `"active" in email` gives `"no"`,
else `"error"`. -/
def botClassify (email : String) : String :=
  if hasSub "flag".data email.data then "yes"
  else if hasSub "active".data email.data then "no"
  else "error"

/-- `main.py` `SIMULATED_DATABASE`. -/
def SIMULATED_DATABASE : List (String × String) :=
  [("active@example.com", "yes"),
   ("flagged@example.com", "no"),
   ("blocked@example.com", "captcha"),
   ("error@example.com", "error")]

/-- `SIMULATED_DATABASE.get(k, "no")`. -/
def dbGet (k : String) : String :=
  ((SIMULATED_DATABASE.find? fun p => p.1 == k).map Prod.snd).getD "no"

/-- The fixed-dictionary rule of `main.py` `check_emails`:
`SIMULATED_DATABASE.get(email.lower(), "no")`. -/
def mainClassify (email : String) : String :=
  dbGet (pyLower email)

/-- Handler-level HTTP response: `ok` is the 200 success path carrying
the result mapping; `unauthorized` carries the status code and error
detail and no mapping. -/
inductive HttpResponse where
  | ok (body : List (String × String))
  | unauthorized (code : Nat) (detail : String)
deriving DecidableEq

/-- `bot.py` `check_emails`: reject with 401 unless the `x-api-key`
header equals the configured key, then classify `data.get("emails", [])`
(`none` models a JSON body without an `emails` field). -/
def botCheckEmails (apiKey : String) (header : Option String)
    (emailsField : Option (List String)) : HttpResponse :=
  if header ≠ some apiKey then HttpResponse.unauthorized 401 "Unauthorized"
  else HttpResponse.ok (runBatch botClassify (emailsField.getD []))

/-- `main.py` `check_emails`: reject with 403 unless the `x-api-key`
header equals the configured key, then classify `payload.emails`. -/
def mainCheckEmails (apiKey : String) (header : Option String)
    (emails : List String) : HttpResponse :=
  if header ≠ some apiKey then HttpResponse.unauthorized 403 "Invalid API key"
  else HttpResponse.ok (runBatch mainClassify emails)

end Services

section FrontEndFlow

/-- Outcome of the front end's POST to the service, as observed inside
`handle_message`'s `try` block: either decoded results, or an exception
(network error, non-2xx raised by `raise_for_status`, malformed JSON). -/
inductive ServiceOutcome where
  | ok (results : List (String × String))
  | err (msg : String)
deriving DecidableEq

/-- `bot.py` `handle_message`.  The state is `user_check_state`, modelled
as `Nat → Option Bool` (`none` = user absent from the dict).  Returns the
new state and the list of replies sent.  The `finally` clause sets the
user's flag to `false` on both outcome branches; the two early-return
paths leave the state untouched, as in the source. -/
def handleMessage (st : Nat → Option Bool) (userId : Nat) (text : String)
    (outcome : ServiceOutcome) : (Nat → Option Bool) × List String :=
  if (st userId).getD false = false then
    (st, ["❗ Please press ✅ Start Email Check first."])
  else
    let emails := parse_emails text
    if emails.isEmpty then
      (st, ["⚠ Please send valid email addresses."])
    else
      let checking := "🔍 Checking " ++ toString emails.length ++ " emails..."
      let reset : Nat → Option Bool := fun u => if u = userId then some false else st u
      match outcome with
      | ServiceOutcome.ok results => (reset, [checking, format_results results])
      | ServiceOutcome.err m => (reset, [checking, "⚠ Error: " ++ m])

/-- Result of the `__main__` startup block of `bot.py`. -/
inductive StartupResult where
  | exited (msg : String)
  | started (token : String)
deriving DecidableEq

/-- Line 18 of `bot.py`:
`os.getenv("TELEGRAM_BOT_TOKEN") or "your_telegram_bot_token"` — a
missing (`none`) or empty environment value falls back to the
placeholder. -/
def resolveToken (env : Option String) : String :=
  match env with
  | some t => if t = "" then "your_telegram_bot_token" else t
  | none => "your_telegram_bot_token"

/-- The startup check of `bot.py`'s `__main__` block:
`if not TELEGRAM_BOT_TOKEN: exit(1)` else run the bot with the resolved
token.  (`not` on a Python string is true exactly for the empty
string.) -/
def startBot (env : Option String) : StartupResult :=
  let token := resolveToken env
  if token = "" then StartupResult.exited "❌ TELEGRAM_BOT_TOKEN is missing."
  else StartupResult.started token

/-- Configuration of one outbound `requests` call: `none` timeout means
no `timeout=` argument was passed (the library then applies no
timeout). -/
structure HttpCallSpec where
  url : String
  timeoutSeconds : Option Nat
deriving DecidableEq

/-- The `requests.get` call in `status_command` (`bot.py` line 119):
no `timeout=` argument. -/
def statusCallSpec : HttpCallSpec :=
  { url := "http://127.0.0.1:8000/status", timeoutSeconds := none }

/-- The `requests.post` call in `handle_message` (`bot.py` lines
142–146): no `timeout=` argument. -/
def checkEmailsCallSpec : HttpCallSpec :=
  { url := "http://127.0.0.1:8000/check_emails", timeoutSeconds := none }

end FrontEndFlow

section ParseEmailsLemmas

lemma mem_dropWhile_of_not_space {c : Char} {l : List Char}
    (h : c ∈ l) (hc : pyIsSpace c = false) : c ∈ l.dropWhile pyIsSpace := by
  induction l with
  | nil => cases h
  | cons a as ih =>
    rw [List.dropWhile_cons]
    by_cases ha : pyIsSpace a = true
    · simp only [ha, if_true]
      rcases List.mem_cons.mp h with rfl | hmem
      · rw [hc] at ha; cases ha
      · exact ih hmem
    · simp only [ha, if_false]
      exact h

lemma mem_stripChars_of_not_space {c : Char} {l : List Char}
    (h : c ∈ l) (hc : pyIsSpace c = false) : c ∈ stripChars l := by
  unfold stripChars
  rw [List.mem_reverse]
  exact mem_dropWhile_of_not_space
    (List.mem_reverse.mpr (mem_dropWhile_of_not_space h hc)) hc

end ParseEmailsLemmas

/-- C6: for every input text, `parse_emails` returns a list with no
duplicates in which every entry contains both the character `@` and the
character `.` (the entries are obtained by splitting on commas and
newlines and trimming whitespace, which is how `parse_emails` is
defined). -/
theorem c6_parse_emails_nodup_and_marks (text : String) :
    (parse_emails text).Nodup ∧
      ∀ e, e ∈ parse_emails text → ('@' ∈ e.data ∧ '.' ∈ e.data) := by
  constructor
  · exact List.nodup_dedup _
  · intro e he
    rw [parse_emails, List.mem_dedup, List.mem_map] at he
    obtain ⟨line, hline, rfl⟩ := he
    rw [List.mem_filter] at hline
    have hat : '@' ∈ line.data := by
      have := hline.2
      rw [hasAtAndDot, Bool.and_eq_true] at this
      exact List.mem_of_elem_eq_true this.1
    have hdot : '.' ∈ line.data := by
      have := hline.2
      rw [hasAtAndDot, Bool.and_eq_true] at this
      exact List.mem_of_elem_eq_true this.2
    exact ⟨mem_stripChars_of_not_space hat (by decide),
           mem_stripChars_of_not_space hdot (by decide)⟩

/-- Witness for C6 at the concrete text `"a@b.c,a@b.c"`. -/
theorem c6_parse_emails_nodup_and_marks_witness :
    (parse_emails "a@b.c,a@b.c").Nodup ∧
      ('@' ∈ "a@b.c".data ∧ '.' ∈ "a@b.c".data) :=
  ⟨(c6_parse_emails_nodup_and_marks "a@b.c,a@b.c").1,
   (c6_parse_emails_nodup_and_marks "a@b.c,a@b.c").2 "a@b.c" (by decide)⟩

section DictLemmas

lemma dictKeys_dictInsert (k v : String) (d : List (String × String)) (x : String) :
    x ∈ dictKeys (dictInsert k v d) ↔ x = k ∨ x ∈ dictKeys d := by
  induction d with
  | nil => simp [dictInsert, dictKeys]
  | cons p rest ih =>
    by_cases hp : p.1 = k
    · simp only [dictInsert, if_pos hp, dictKeys, List.map_cons, List.mem_cons]
      constructor
      · rintro (rfl | h)
        · exact Or.inl rfl
        · exact Or.inr (Or.inr h)
      · rintro (rfl | h | h)
        · exact Or.inl rfl
        · exact Or.inl (hp ▸ h.symm ▸ rfl)
        · exact Or.inr h
    · simp only [dictInsert, if_neg hp, dictKeys, List.map_cons, List.mem_cons] at *
      rw [ih]
      tauto

lemma dictKeys_nodup_dictInsert (k v : String) (d : List (String × String))
    (h : (dictKeys d).Nodup) : (dictKeys (dictInsert k v d)).Nodup := by
  induction d with
  | nil => simp [dictInsert, dictKeys]
  | cons p rest ih =>
    rw [dictKeys, List.map_cons, List.nodup_cons] at h
    by_cases hp : p.1 = k
    · simp only [dictInsert, if_pos hp, dictKeys, List.map_cons, List.nodup_cons]
      exact ⟨hp ▸ h.1, h.2⟩
    · simp only [dictInsert, if_neg hp, dictKeys, List.map_cons, List.nodup_cons]
      refine ⟨?_, ih h.2⟩
      intro hmem
      rcases (dictKeys_dictInsert k v rest p.1).mp hmem with rfl | hmem
      · exact hp rfl
      · exact h.1 hmem

lemma getValue_dictInsert (k v : String) (d : List (String × String)) (x : String) :
    getValue (dictInsert k v d) x = if x = k then some v else getValue d x := by
  induction d with
  | nil =>
    by_cases hx : x = k
    · simp [dictInsert, getValue, hx]
    · simp [dictInsert, getValue, hx, Ne.symm hx]
  | cons p rest ih =>
    by_cases hp : p.1 = k
    · by_cases hx : x = k
      · simp [dictInsert, if_pos hp, getValue, hx]
      · simp only [dictInsert, if_pos hp, getValue, List.find?_cons, if_neg hx]
        have hk : (k == x) = false := beq_eq_false_iff_ne.mpr fun h => hx h.symm
        have hpx : (p.1 == x) = false := beq_eq_false_iff_ne.mpr fun h => hx (hp ▸ h).symm
        simp [hk, hpx]
    · by_cases hx : x = k
      · subst hx
        have hpx : (p.1 == x) = false := beq_eq_false_iff_ne.mpr hp
        simp only [dictInsert, if_neg hp, getValue, List.find?_cons, hpx, if_pos rfl]
        simpa [getValue, if_pos rfl] using ih
      · simp only [dictInsert, if_neg hp, getValue, List.find?_cons, if_neg hx]
        by_cases hpe : p.1 == x
        · simp [hpe]
        · simp only [hpe, Bool.false_eq_true, if_false]
          simpa [getValue, if_neg hx] using ih

lemma runBatch_foldl_keys_mem (classify : String → String) (es : List String) :
    ∀ (d : List (String × String)) (x : String),
      x ∈ dictKeys (es.foldl (fun d e => dictInsert e (classify e) d) d) ↔
        x ∈ es ∨ x ∈ dictKeys d := by
  induction es with
  | nil => intro d x; simp
  | cons e es ih =>
    intro d x
    rw [List.foldl_cons, ih, dictKeys_dictInsert, List.mem_cons]
    tauto

lemma runBatch_foldl_keys_nodup (classify : String → String) (es : List String) :
    ∀ (d : List (String × String)), (dictKeys d).Nodup →
      (dictKeys (es.foldl (fun d e => dictInsert e (classify e) d) d)).Nodup := by
  induction es with
  | nil => intro d h; simpa using h
  | cons e es ih =>
    intro d h
    rw [List.foldl_cons]
    exact ih _ (dictKeys_nodup_dictInsert e (classify e) d h)

lemma runBatch_foldl_getValue (classify : String → String) (es : List String) :
    ∀ (d : List (String × String)) (x : String),
      getValue (es.foldl (fun d e => dictInsert e (classify e) d) d) x =
        if x ∈ es then some (classify x) else getValue d x := by
  induction es with
  | nil => intro d x; simp
  | cons e es ih =>
    intro d x
    rw [List.foldl_cons, ih, getValue_dictInsert]
    by_cases hes : x ∈ es
    · simp [hes]
    · by_cases hx : x = e
      · simp [hes, hx]
      · simp [hes, hx]

lemma runBatch_keys_mem (classify : String → String) (es : List String) (x : String) :
    x ∈ dictKeys (runBatch classify es) ↔ x ∈ es := by
  rw [runBatch, runBatch_foldl_keys_mem]
  simp [dictKeys]

lemma runBatch_keys_nodup (classify : String → String) (es : List String) :
    (dictKeys (runBatch classify es)).Nodup := by
  rw [runBatch]
  exact runBatch_foldl_keys_nodup classify es [] (by simp [dictKeys])

lemma runBatch_getValue (classify : String → String) (es : List String) (x : String) :
    getValue (runBatch classify es) x =
      if x ∈ es then some (classify x) else none := by
  rw [runBatch, runBatch_foldl_getValue]
  simp [getValue]

end DictLemmas

/-- C4: for every authorized `POST /check_emails` request, in both
service implementations, the returned mapping has each submitted email
string (exactly as submitted) exactly once as a key: the key list has no
duplicates and its membership coincides with membership in the submitted
list, so no email is dropped. -/
theorem c4_every_email_keyed_once (apiKey : String) (emails : List String) :
    (∃ m, botCheckEmails apiKey (some apiKey) (some emails) = HttpResponse.ok m ∧
      (dictKeys m).Nodup ∧ ∀ e, e ∈ dictKeys m ↔ e ∈ emails) ∧
    (∃ m, mainCheckEmails apiKey (some apiKey) emails = HttpResponse.ok m ∧
      (dictKeys m).Nodup ∧ ∀ e, e ∈ dictKeys m ↔ e ∈ emails) := by
  constructor
  · refine ⟨runBatch botClassify emails, ?_, runBatch_keys_nodup botClassify emails,
      fun e => runBatch_keys_mem botClassify emails e⟩
    rw [botCheckEmails, if_neg (by simp)]
    rfl
  · refine ⟨runBatch mainClassify emails, ?_, runBatch_keys_nodup mainClassify emails,
      fun e => runBatch_keys_mem mainClassify emails e⟩
    rw [mainCheckEmails, if_neg (by simp)]

/-- C1: any `POST /check_emails` whose `x-api-key` header differs from
the configured secret (a missing header included) gets the unauthorized
response — 401 in the embedded `bot.py` service, 403 in `main.py` — and
no classification mapping, whatever the payload. -/
theorem c1_unauthorized_no_mapping (apiKey : String) (header : Option String)
    (hkey : header ≠ some apiKey)
    (botPayload : Option (List String)) (mainEmails : List String) :
    botCheckEmails apiKey header botPayload =
        HttpResponse.unauthorized 401 "Unauthorized" ∧
      mainCheckEmails apiKey header mainEmails =
        HttpResponse.unauthorized 403 "Invalid API key" ∧
      (∀ m, botCheckEmails apiKey header botPayload ≠ HttpResponse.ok m) ∧
      (∀ m, mainCheckEmails apiKey header mainEmails ≠ HttpResponse.ok m) := by
  have hb : botCheckEmails apiKey header botPayload =
      HttpResponse.unauthorized 401 "Unauthorized" := by
    rw [botCheckEmails, if_pos hkey]
  have hm : mainCheckEmails apiKey header mainEmails =
      HttpResponse.unauthorized 403 "Invalid API key" := by
    rw [mainCheckEmails, if_pos hkey]
  refine ⟨hb, hm, ?_, ?_⟩
  · intro m h
    rw [hb] at h
    cases h
  · intro m h
    rw [hm] at h
    cases h

/-- Witness for C1: missing header against the default configured key. -/
theorem c1_unauthorized_no_mapping_witness :
    botCheckEmails "my_secure_api_key_123" none (some ["x@y.z"]) =
        HttpResponse.unauthorized 401 "Unauthorized" ∧
      mainCheckEmails "my_secure_api_key_123" none ["x@y.z"] =
        HttpResponse.unauthorized 403 "Invalid API key" :=
  ⟨(c1_unauthorized_no_mapping "my_secure_api_key_123" none (by simp)
      (some ["x@y.z"]) ["x@y.z"]).1,
   (c1_unauthorized_no_mapping "my_secure_api_key_123" none (by simp)
      (some ["x@y.z"]) ["x@y.z"]).2.1⟩

/-- C2: the fixed-dictionary service (`main.py`), on an authorized
request for the four listed addresses, returns exactly the stated
mapping; the unmatched address defaults to `"no"`, the label the front
end renders as `✅ Active`. -/
theorem c2_fixed_dictionary_batch (apiKey : String) :
    mainCheckEmails apiKey (some apiKey)
        ["active@example.com", "flagged@example.com",
         "blocked@example.com", "nomatch@example.com"] =
      HttpResponse.ok
        [("active@example.com", "yes"), ("flagged@example.com", "no"),
         ("blocked@example.com", "captcha"), ("nomatch@example.com", "no")] ∧
      statusMapGet "no" = "✅ Active" := by
  constructor
  · rw [mainCheckEmails, if_neg (by simp)]
    decide
  · decide

/-- C10: in the embedded `bot.py` service, an authorized request whose
JSON body has no `emails` field is not rejected: `data.get("emails", [])`
yields the empty batch and the handler returns the empty mapping on the
success path. -/
theorem c10_missing_emails_field_empty_ok (apiKey : String) :
    botCheckEmails apiKey (some apiKey) none = HttpResponse.ok [] := by
  rw [botCheckEmails, if_neg (by simp)]
  rfl

/-- C3: in an authorized batch against the substring service (`bot.py`),
every submitted email is mapped to the result of the substring rule, and
that label renders as `⚠️ Flagged` when the email contains `"flag"`
(which takes precedence), as `✅ Active` when it contains `"active"` but
not `"flag"`, and as `❓ Unknown or Error` otherwise. -/
theorem c3_substring_rule (apiKey : String) (emails : List String) (email : String)
    (hmem : email ∈ emails) :
    ∃ m, botCheckEmails apiKey (some apiKey) (some emails) = HttpResponse.ok m ∧
      getValue m email = some (botClassify email) ∧
      statusMapGet (botClassify email) =
        (if hasSub "flag".data email.data then "⚠️ Flagged"
         else if hasSub "active".data email.data then "✅ Active"
         else "❓ Unknown or Error") := by
  refine ⟨runBatch botClassify emails, ?_, ?_, ?_⟩
  · rw [botCheckEmails, if_neg (by simp)]
    rfl
  · rw [runBatch_getValue, if_pos hmem]
  · rw [botClassify]
    by_cases h1 : hasSub "flag".data email.data
    · simp only [h1, if_true]
      rfl
    · by_cases h2 : hasSub "active".data email.data
      · simp only [h1, h2, if_true, if_false, Bool.false_eq_true]
        rfl
      · simp only [h1, h2, if_false, Bool.false_eq_true]
        rfl

/-- Witness for C3 at a concrete authorized batch. -/
theorem c3_substring_rule_witness :
    statusMapGet (botClassify "flagme@x.com") = "⚠️ Flagged" := by
  obtain ⟨m, hok, hval, hrender⟩ :=
    c3_substring_rule "k" ["flagme@x.com"] "flagme@x.com" (by decide)
  rw [hrender]
  decide

/-- C5: whenever a user's session flag is set and their text yields a
non-empty email batch, `handle_message` resets the flag to `false` after
the service call, on the success branch and the failure branch alike
(the reset is the `finally` clause). -/
theorem c5_session_flag_reset (st : Nat → Option Bool) (userId : Nat)
    (text : String) (outcome : ServiceOutcome)
    (hflag : (st userId).getD false = true)
    (hemails : parse_emails text ≠ []) :
    (handleMessage st userId text outcome).1 userId = some false := by
  have he : (parse_emails text).isEmpty = false := by
    simpa [List.isEmpty_eq_false] using hemails
  cases outcome with
  | ok results => simp [handleMessage, hflag, he]
  | err m => simp [handleMessage, hflag, he]

/-- Witness for C5: one concrete run per outcome branch. -/
theorem c5_session_flag_reset_witness :
    (handleMessage (fun u => if u = 7 then some true else none) 7 "a@b.c"
        (ServiceOutcome.ok [])).1 7 = some false ∧
      (handleMessage (fun u => if u = 7 then some true else none) 7 "a@b.c"
        (ServiceOutcome.err "boom")).1 7 = some false :=
  ⟨c5_session_flag_reset (fun u => if u = 7 then some true else none) 7 "a@b.c"
      (ServiceOutcome.ok []) (by decide) (by decide),
   c5_session_flag_reset (fun u => if u = 7 then some true else none) 7 "a@b.c"
      (ServiceOutcome.err "boom") (by decide) (by decide)⟩

/-- C7 counterexample: the unrecognized label `"bogus"` is rendered as
`❓ Unknown`, and the rendered line does not contain the text
`Unknown or Error` that the claim requires. -/
theorem c7_unrecognized_counterexample :
    format_results [("a@b.c", "bogus")] = "❓ Unknown – a@b.c" ∧
      hasSub "Unknown or Error".data "❓ Unknown – a@b.c".data = false := by
  constructor
  · rfl
  · decide

/-- C7 amended: a label other than the three recognized ones is rendered
with the question icon, but with text `Unknown or Error` only for the
literal label `"error"`; any other unrecognized label gets the
`.get` default `❓ Unknown`. -/
theorem c7_unrecognized_amended (status : String)
    (h1 : status ≠ "yes") (h2 : status ≠ "no") (h3 : status ≠ "captcha") :
    statusMapGet status =
      (if status = "error" then "❓ Unknown or Error" else "❓ Unknown") := by
  have e1 : ("yes" == status) = false := beq_eq_false_iff_ne.mpr (Ne.symm h1)
  have e2 : ("no" == status) = false := beq_eq_false_iff_ne.mpr (Ne.symm h2)
  have e3 : ("captcha" == status) = false := beq_eq_false_iff_ne.mpr (Ne.symm h3)
  by_cases h4 : status = "error"
  · subst h4
    decide
  · have e4 : ("error" == status) = false := beq_eq_false_iff_ne.mpr (Ne.symm h4)
    simp [statusMapGet, status_map, e1, e2, e3, e4, h4]

/-- Witness for the amended C7 at the unrecognized label `"bogus"`. -/
theorem c7_unrecognized_amended_witness :
    statusMapGet "bogus" = "❓ Unknown" := by
  have h := c7_unrecognized_amended "bogus" (by decide) (by decide) (by decide)
  simpa using h

lemma resolveToken_ne_empty (env : Option String) : resolveToken env ≠ "" := by
  cases env with
  | none => decide
  | some t =>
    rw [resolveToken]
    by_cases h : t = ""
    · rw [if_pos h]
      decide
    · rw [if_neg h]
      exact h

/-- C8 evidence: with `TELEGRAM_BOT_TOKEN` absent from the environment,
startup resolves the token to the placeholder and starts the bot; more
generally the `exit` branch is unreachable because the resolved token is
never empty, so the process never exits over a missing token. -/
theorem c8_startup_placeholder_no_exit :
    startBot none = StartupResult.started "your_telegram_bot_token" ∧
      ∀ env, startBot env = StartupResult.started (resolveToken env) := by
  refine ⟨rfl, fun env => ?_⟩
  simp only [startBot]
  rw [if_neg (resolveToken_ne_empty env)]

/-- C9 counterexample: neither outbound call of the front end passes a
timeout — both call configurations carry `none`. -/
theorem c9_no_timeout_counterexample :
    statusCallSpec.timeoutSeconds = none ∧
      checkEmailsCallSpec.timeoutSeconds = none :=
  ⟨rfl, rfl⟩

/-- C9 amended: the front end's outbound calls (health check and batch
check) are made with no explicit timeout, so the library applies none;
nevertheless any exception raised by the batch call is treated as a
failure — an error reply is rendered and the session flag is reset. -/
theorem c9_no_timeout_amended (st : Nat → Option Bool) (userId : Nat)
    (text : String) (m : String)
    (hflag : (st userId).getD false = true)
    (hemails : parse_emails text ≠ []) :
    statusCallSpec.timeoutSeconds = none ∧
      checkEmailsCallSpec.timeoutSeconds = none ∧
      (handleMessage st userId text (ServiceOutcome.err m)).1 userId = some false ∧
      ("⚠ Error: " ++ m) ∈ (handleMessage st userId text (ServiceOutcome.err m)).2 := by
  have he : (parse_emails text).isEmpty = false := by
    simpa [List.isEmpty_eq_false] using hemails
  refine ⟨rfl, rfl, ?_, ?_⟩
  · simp [handleMessage, hflag, he]
  · simp [handleMessage, hflag, he]

/-- Witness for the amended C9 at a concrete failing call. -/
theorem c9_no_timeout_amended_witness :
    statusCallSpec.timeoutSeconds = none ∧
      checkEmailsCallSpec.timeoutSeconds = none ∧
      (handleMessage (fun u => if u = 7 then some true else none) 7 "a@b.c"
          (ServiceOutcome.err "boom")).1 7 = some false ∧
      ("⚠ Error: " ++ "boom") ∈ (handleMessage (fun u => if u = 7 then some true else none)
          7 "a@b.c" (ServiceOutcome.err "boom")).2 :=
  c9_no_timeout_amended (fun u => if u = 7 then some true else none) 7 "a@b.c" "boom"
    (by decide) (by decide)
